import Mathlib

/-!
Shallow embedding of the graywires circuit simulator (src/circuits.py) and
verification of the frozen claims about it.

The embedding follows the dynamic-provenance design of `circuits.py`:
`BitVector`, `ConcreteWire` with its overridden operators, `WireBundle`,
the `Circuit` simulation engine (`_simulate_raw` / `dump`), and the
mark-and-sweep liveness pass inside `dump`.  Python integers are modelled
as `Int`; Python bitwise `&` and `|` on integers are `Int.land` and
`Int.lor` (twos-complement, matching CPython).  Fallible operations
return `Except PyError`, whose constructors name the Python exception
class the source would raise.  The VCD waveform emission (the opaque
external sink) is omitted except for the parts of `_vcd_init_vars` that
can raise, which `_simulate_raw` invokes before simulating.
-/

namespace GrayWires

/-- Python exception kinds raised by the code paths embedded here. -/
inductive PyError where
  | keyError
  | typeError
  | assertionError
  | indexError
deriving DecidableEq

/-- `BitVector` from circuits.py: a frozen dataclass with fields `value` and
`width`.  The constructor performs NO masking: it stores `value` exactly as
given.  Dataclass equality compares the two fields. -/
structure BitVector where
  value : Int
  width : Nat
deriving DecidableEq

/-- `BV1(value)` from circuits.py: a 1-bit `BitVector`. -/
def BV1 (value : Int) : BitVector :=
  BitVector.mk value 1

/-- `ConcreteWire` from circuits.py: the concrete value of a named wire on a
given cycle, together with the provenance edges (`srcs`) that produced it. -/
inductive ConcreteWire where
  | mk (name : String) (bv : BitVector) (cycle : Nat) (srcs : List ConcreteWire)

def ConcreteWire.name : ConcreteWire → String
  | ConcreteWire.mk n _ _ _ => n

def ConcreteWire.bv : ConcreteWire → BitVector
  | ConcreteWire.mk _ b _ _ => b

def ConcreteWire.cycle : ConcreteWire → Nat
  | ConcreteWire.mk _ _ c _ => c

def ConcreteWire.srcs : ConcreteWire → List ConcreteWire
  | ConcreteWire.mk _ _ _ s => s

/-- `GraphNode` from circuits.py: an operator result, a pair of the computed
`BitVector` and the pruned list of source wires. -/
abbrev GraphNode := BitVector × List ConcreteWire

/-- The identity of a wire for liveness purposes: its `(name, cycle)` pair. -/
def wireKey (w : ConcreteWire) : String × Nat :=
  (w.name, w.cycle)

/-- `ConcreteWire.__and__`: bitwise AND with width `min(w1, w2)` and the
sensitivity-pruned source list (the 1-valued operand of a mixed 0/1 pair is
dropped; every other value combination keeps both operands). -/
def ConcreteWire.and (self o : ConcreteWire) : GraphNode :=
  let bv := BitVector.mk (Int.land self.bv.value o.bv.value) (min self.bv.width o.bv.width)
  if self.bv.value = 1 ∧ o.bv.value = 1 then (bv, [self, o])
  else if self.bv.value = 1 ∧ o.bv.value = 0 then (bv, [o])
  else if self.bv.value = 0 ∧ o.bv.value = 1 then (bv, [self])
  else (bv, [self, o])

/-- `ConcreteWire.__or__`: bitwise OR with width `min(w1, w2)` and the
sensitivity-pruned source list (the 0-valued operand of a mixed 0/1 pair is
dropped; every other value combination keeps both operands). -/
def ConcreteWire.or (self o : ConcreteWire) : GraphNode :=
  let bv := BitVector.mk (Int.lor self.bv.value o.bv.value) (min self.bv.width o.bv.width)
  if self.bv.value = 0 ∧ o.bv.value = 0 then (bv, [self, o])
  else if self.bv.value = 0 ∧ o.bv.value = 1 then (bv, [o])
  else if self.bv.value = 1 ∧ o.bv.value = 0 then (bv, [self])
  else (bv, [self, o])

/-- `ConcreteWire.__xor__`: bitwise XOR with width `min(w1, w2)`; both
operands are always sources. -/
def ConcreteWire.xor (self o : ConcreteWire) : GraphNode :=
  (BitVector.mk (Int.xor self.bv.value o.bv.value) (min self.bv.width o.bv.width), [self, o])

/-- `ConcreteWire.__add__`: the sum of the two values (no masking happens,
since the `BitVector` constructor stores the value unchanged) at width
`max(w1, w2)`; both operands are always sources. -/
def ConcreteWire.add (self o : ConcreteWire) : GraphNode :=
  (BitVector.mk (self.bv.value + o.bv.value) (max self.bv.width o.bv.width), [self, o])

/-- `ConcreteWire.__eq__` from circuits.py: it returns a `GraphNode`
(a 2-tuple), NOT a boolean.  Python booleans are ints, so the comparison
result is stored as 1 or 0 in a 1-bit `BitVector`. -/
def ConcreteWire.eq (self o : ConcreteWire) : GraphNode :=
  (BV1 (if self.bv.value = o.bv.value then 1 else 0), [self, o])

/-- Truthiness of a `GraphNode` under Python semantics: a 2-tuple is a
non-empty tuple and is therefore always truthy. -/
def graphNodeTruthy (_ : GraphNode) : Bool :=
  true

/-- Python `x in list` for `ConcreteWire` elements.  CPython tests
`x is e or x == e` for each element; since the overridden `__eq__` returns a
2-tuple, whose truth value is always `True`, the identity test is subsumed
and any element of a non-empty list matches. -/
def pyIn (x : ConcreteWire) (l : List ConcreteWire) : Bool :=
  l.any (fun e => graphNodeTruthy (ConcreteWire.eq x e))

/-- Python sequence indexing `l[i]` on a list: a negative index counts from
the end; an out-of-range index raises `IndexError` (modelled as `none`). -/
def pyGet (l : List ConcreteWire) (i : Int) : Option ConcreteWire :=
  if 0 ≤ i then l.get? i.toNat
  else if 0 ≤ (l.length : Int) + i then l.get? ((l.length : Int) + i).toNat
  else none

/-- `ConcreteWire.mux(self, on_zero, *args)` from circuits.py, embedded
line by line:
the select-sensitivity list is `[]` when every candidate equals `on_zero`
(by `BitVector` dataclass equality) and `[self]` otherwise; then the branch
on `self.bv.value != 0` returns `on_zero`, while the `== 0` branch computes
`idx = self.bv.value - 1` (which is `-1` there), passes the
`assert idx < len(args)` bound check, and indexes `args[idx]` with Python
negative-index semantics (raising `IndexError` when `args` is empty). -/
def ConcreteWire.mux (self on_zero : ConcreteWire) (args : List ConcreteWire) :
    Except PyError GraphNode :=
  let used_list := if args.all (fun w => on_zero.bv == w.bv) then [] else [self]
  if self.bv.value ≠ 0 then
    Except.ok (on_zero.bv, used_list ++ [on_zero])
  else
    let idx : Int := self.bv.value - 1
    if idx < (args.length : Int) then
      match pyGet args idx with
      | some wire => Except.ok (wire.bv, used_list ++ [wire])
      | none => Except.error PyError.indexError
    else
      Except.error PyError.assertionError

/-- `WireBundle` from circuits.py: a concrete collection of wires on a given
cycle.  The Python `wires` dict is modelled as an insertion-ordered
association list (CPython dicts preserve insertion order; assignment to an
existing key keeps its position). -/
structure WireBundle where
  cycle : Nat
  wires : List (String × ConcreteWire)
  frozen : Bool

/-- Python dict assignment `d[k] = v` on the association list: replace the
value in place when the key is present, append otherwise. -/
def assocSet : List (String × ConcreteWire) → String → ConcreteWire → List (String × ConcreteWire)
  | [], k, v => [(k, v)]
  | (k2, v2) :: rest, k, v =>
      if k2 = k then (k, v) :: rest else (k2, v2) :: assocSet rest k v

/-- `WireBundle.__getitem__`: dict lookup, raising `KeyError` when the name
is absent. -/
def WireBundle.getitem (b : WireBundle) (k : String) : Except PyError ConcreteWire :=
  match b.wires.find? (fun p => p.1 == k) with
  | some p => Except.ok p.2
  | none => Except.error PyError.keyError

/-- The runtime argument kinds `WireBundle.__setitem__` can receive: the
annotated `Union` of a `ConcreteWire` and an operator-result `GraphNode`
pair, plus a bare `BitVector` (which section 4.3 of the spec says is
accepted). -/
inductive SetItemArg where
  | wire (w : ConcreteWire)
  | node (g : GraphNode)
  | rawBV (bv : BitVector)

/-- `WireBundle.__setitem__`: raises `KeyError` on a frozen bundle
(the source literally raises `KeyError`, not a dedicated error class).
A `ConcreteWire` argument is re-wrapped as a pass-through wire with the
bundle's own cycle and the single source `[value]`; any other argument is
subscripted as `value[0]` / `value[1]`, which succeeds for the `GraphNode`
tuple and raises `TypeError` for a bare (non-subscriptable) `BitVector`. -/
def WireBundle.setitem (b : WireBundle) (k : String) (v : SetItemArg) :
    Except PyError WireBundle :=
  if b.frozen then Except.error PyError.keyError
  else
    match v with
    | SetItemArg.wire w =>
        Except.ok (WireBundle.mk b.cycle
          (assocSet b.wires k (ConcreteWire.mk k w.bv b.cycle [w])) b.frozen)
    | SetItemArg.node g =>
        Except.ok (WireBundle.mk b.cycle
          (assocSet b.wires k (ConcreteWire.mk k g.1 b.cycle g.2)) b.frozen)
    | SetItemArg.rawBV _ => Except.error PyError.typeError

/-- `WireBundle.__delitem__`: `del self.wires[key]`.  There is NO frozen
check here — deletion succeeds even on a frozen bundle; a missing key
raises `KeyError`. -/
def WireBundle.delitem (b : WireBundle) (k : String) : Except PyError WireBundle :=
  match b.wires.find? (fun p => p.1 == k) with
  | some _ => Except.ok (WireBundle.mk b.cycle
      (b.wires.filter (fun p => !(p.1 == k))) b.frozen)
  | none => Except.error PyError.keyError

/-- `WireBundle.freeze`: sets the frozen flag and returns the bundle. -/
def WireBundle.freeze (b : WireBundle) : WireBundle :=
  WireBundle.mk b.cycle b.wires true

/-- The `Circuit` transition contract: `initial_state_values` and
`at_posedge_clk`.  The Python method mutates the `next_state` and `outputs`
bundles it is handed; here it returns their updated versions (or the Python
exception the subclass body would raise). -/
structure Circuit where
  initial_state_values : List (String × BitVector)
  at_posedge_clk : WireBundle → WireBundle → WireBundle → WireBundle →
    Except PyError (WireBundle × WireBundle)

/-- `Circuit._get_initial_state`: a fresh cycle-0 bundle populated with
`w[name] = (bv, [])` for each initial state value. -/
def Circuit.get_initial_state (c : Circuit) : Except PyError WireBundle :=
  c.initial_state_values.foldlM
    (fun b p => WireBundle.setitem b p.1 (SetItemArg.node (p.2, [])))
    (WireBundle.mk 0 [] false)

/-- The fallible part of `Circuit._vcd_init_vars`: it reads
`input_values[0]` (raising `KeyError` when cycle 0 is absent), builds the
cycle-0 input bundle, and runs a no-op simulation of cycle 0 through
`at_posedge_clk` (with a cycle-0 next-state bundle and a cycle-0 output
bundle) purely to register VCD variables.  The VCD registration itself is
the opaque external sink and is omitted. -/
def Circuit.vcd_init_vars (c : Circuit)
    (input_values : Nat → Option (List (String × BitVector))) :
    Except PyError Unit := do
  let st0 ← c.get_initial_state
  let ivs0 ← match input_values 0 with
    | some l => Except.ok l
    | none => Except.error PyError.keyError
  let vcdInputs0 ← ivs0.foldlM
    (fun b p => WireBundle.setitem b p.1 (SetItemArg.node (p.2, [])))
    (WireBundle.mk 0 [] false)
  let _ ← c.at_posedge_clk st0.freeze vcdInputs0 (WireBundle.mk 0 [] false)
    (WireBundle.mk 0 [] false)
  Except.ok ()

/-- The cycle loop of `Circuit._simulate_raw`, one iteration per simulated
cycle `i`: build and freeze the input bundle from `input_values[i]`, run
`at_posedge_clk` with a fresh cycle-`i+1` next-state bundle and a fresh
cycle-`i` output bundle, freeze the next state, and append the wires named
by `read_outputs[i]` (when present) to the accumulating root list.  The VCD
`update_wire` calls are the opaque sink and are omitted (their
`i == wire.cycle` assertions always hold, as every wire placed in a bundle
is stamped with that bundle's cycle). -/
def Circuit.sim_loop (c : Circuit)
    (input_values : Nat → Option (List (String × BitVector)))
    (read_outputs : Nat → Option (List String)) :
    Nat → Nat → WireBundle → List ConcreteWire → Except PyError (List ConcreteWire)
  | 0, _, _, roots => Except.ok roots
  | Nat.succ n, i, curr_state, roots => do
      let ivs ← match input_values i with
        | some l => Except.ok l
        | none => Except.error PyError.keyError
      let curr_inputs ← ivs.foldlM
        (fun b p => WireBundle.setitem b p.1 (SetItemArg.node (p.2, [])))
        (WireBundle.mk i [] false)
      let curr_inputs := curr_inputs.freeze
      let r ← c.at_posedge_clk curr_state curr_inputs
        (WireBundle.mk (i + 1) [] false) (WireBundle.mk i [] false)
      let curr_state2 := r.1.freeze
      let roots2 ← match read_outputs i with
        | none => Except.ok roots
        | some names => names.foldlM (fun acc nm => do
            let w ← WireBundle.getitem r.2 nm
            Except.ok (acc ++ [w])) roots
      c.sim_loop input_values read_outputs n (i + 1) curr_state2 roots2

/-- `Circuit._simulate_raw` minus the VCD writes: run `_vcd_init_vars`,
build the frozen initial state, and run the cycle loop from cycle 0 with an
empty root list.  `read_outputs` gives, per cycle, the list of observed
output names (the Python `Dict[int, Set[str]]`; set iteration order is not
observable in the claims settled here, which use singleton sets). -/
def Circuit.simulate_raw (c : Circuit) (sim_cycles : Nat)
    (input_values : Nat → Option (List (String × BitVector)))
    (read_outputs : Nat → Option (List String)) :
    Except PyError (List ConcreteWire) := do
  let _ ← c.vcd_init_vars input_values
  let st ← c.get_initial_state
  c.sim_loop input_values read_outputs sim_cycles 0 st.freeze []

/-- The mark-and-sweep loop inside `Circuit.dump`.  The Python stack is a
list appended to and popped from its right end; here the list head is the
stack top, so pushing the sources of a popped wire in order with cons makes
the next pop agree with Python.  Membership in `marked` is tested with the
Python `in` operator, i.e. `pyIn` above.  The loop is given explicit fuel;
`markSweepLoop_marked_ne_nil` below shows that fuel equal to the stack
length always suffices, because the truthy `__eq__` keeps the stack from
ever growing. -/
def markSweepLoop : Nat → List ConcreteWire → List ConcreteWire →
    Option (List ConcreteWire)
  | _, [], marked => some marked
  | 0, _ :: _, _ => none
  | Nat.succ fuel, wire :: stack, marked =>
      let p : List ConcreteWire × List ConcreteWire :=
        wire.srcs.foldl
          (fun q in_wire =>
            if pyIn in_wire q.1 then q else (q.1 ++ [in_wire], in_wire :: q.2))
          (marked, stack)
      markSweepLoop fuel p.2 p.1

/-- `Circuit.dump` minus the two VCD emissions: assert `sim_cycles > 0`,
collect the roots with `_simulate_raw`, copy them into `marked` and the
work stack, run the mark-and-sweep loop, and return `marked`.  (The
`_simulate_with_usage` replay consumes `marked` and writes only to the VCD
sink, raising nothing new, so it is omitted.) -/
def Circuit.dump (c : Circuit) (sim_cycles : Nat)
    (input_values : Nat → Option (List (String × BitVector)))
    (read_outputs : Nat → Option (List String)) :
    Except PyError (List ConcreteWire) := do
  if sim_cycles = 0 then Except.error PyError.assertionError
  else do
    let roots ← c.simulate_raw sim_cycles input_values read_outputs
    match markSweepLoop roots.length roots roots with
    | some marked => Except.ok marked
    | none => Except.error PyError.assertionError

/-- `AndGate1B` from circuits.py: a combinational circuit computing
`outputs["q"] = inputs["a"] & inputs["b"]`. -/
def andGate1B : Circuit :=
  Circuit.mk []
    (fun _curr_state inputs next_state outputs => do
      let wa ← inputs.getitem "a"
      let wb ← inputs.getitem "b"
      let outputs2 ← outputs.setitem "q" (SetItemArg.node (ConcreteWire.and wa wb))
      Except.ok (next_state, outputs2))

/-- Scenario A inputs: one cycle with `a = 1` and `b = 0` (1-bit each). -/
def andInputs : Nat → Option (List (String × BitVector))
  | 0 => some [("a", BV1 1), ("b", BV1 0)]
  | _ => none

/-- Scenario A observed outputs: `q` read on cycle 0. -/
def andReadOutputs : Nat → Option (List String)
  | 0 => some ["q"]
  | _ => none

/-- The input wire `b` on cycle 0 as the simulation constructs it. -/
def cwB : ConcreteWire := ConcreteWire.mk "b" (BV1 0) 0 []

/-- The output wire `q` on cycle 0 as the simulation constructs it: value
0, with the single pruned source `b`. -/
def cwQ : ConcreteWire := ConcreteWire.mk "q" (BV1 0) 0 [cwB]

/-! ## Helper lemmas -/

/-- In a non-empty list, the Python membership test always succeeds,
because the overridden equality returns an always-truthy tuple. -/
theorem pyIn_of_ne_nil (x : ConcreteWire) (l : List ConcreteWire) (h : l ≠ []) :
    pyIn x l = true := by
  cases l with
  | nil => exact absurd rfl h
  | cons a t => rfl

/-- With a non-empty marked list, one source-scanning fold of the
mark-and-sweep loop changes nothing: every source passes the (always-true)
membership test and is skipped. -/
theorem markSweep_fold_const (srcs : List ConcreteWire) (marked stack : List ConcreteWire)
    (h : marked ≠ []) :
    srcs.foldl
      (fun q in_wire =>
        if pyIn in_wire q.1 then q else (q.1 ++ [in_wire], in_wire :: q.2))
      (marked, stack) = (marked, stack) := by
  induction srcs with
  | nil => rfl
  | cons s rest ih =>
      simp only [List.foldl_cons, pyIn_of_ne_nil s marked h, if_true]
      exact ih

/-- With a non-empty marked list, the mark-and-sweep loop only drains its
stack: fuel equal to the stack length suffices and the marked list is
returned unchanged.  In particular `Circuit.dump`, which starts the loop
with `marked = stack = roots`, always returns exactly the root list. -/
theorem markSweepLoop_marked_ne_nil (stack marked : List ConcreteWire) (h : marked ≠ []) :
    markSweepLoop stack.length stack marked = some marked := by
  induction stack with
  | nil => rfl
  | cons w rest ih =>
      show markSweepLoop (rest.length + 1) (w :: rest) marked = some marked
      simp only [markSweepLoop, markSweep_fold_const w.srcs marked rest h]
      exact ih

/-- Looking up the key just written by a Python dict assignment finds the
new value. -/
theorem find?_assocSet (l : List (String × ConcreteWire)) (k : String) (v : ConcreteWire) :
    (assocSet l k v).find? (fun p => p.1 == k) = some (k, v) := by
  induction l with
  | nil => simp [assocSet]
  | cons hd tl ih =>
      by_cases hk : hd.1 = k
      · simp [assocSet, hk]
      · simp [assocSet, hk, ih]

/-! ## Claim theorems -/

/-- C1 (code bug): the marked collection returned by `Circuit.dump` is not
closed under `srcs`.  On the completed one-cycle AND-gate run with inputs
`a = 1`, `b = 0` and root `q` at cycle 0, `dump` returns exactly the root
wire `q`, whose source list is `[b]`, yet no wire with key `(b, 0)` is in
the returned collection: the overridden `ConcreteWire` equality returns an
always-truthy tuple, so the membership test in the mark phase never lets a
source be added. -/
theorem dump_marked_omits_sources :
    Circuit.dump andGate1B 1 andInputs andReadOutputs = Except.ok [cwQ]
  ∧ cwQ.srcs = [cwB]
  ∧ ([cwQ].map wireKey).contains (wireKey cwB) = false :=
  ⟨rfl, rfl, rfl⟩

/-- C2 (code bug): in scenario A (single-cycle AND gate, `a = 1`, `b = 0`,
`q` observed at cycle 0) the output value is 0 and the result wire has
source set exactly `{b}` as claimed, but the liveness result is only
`{(q, 0)}` — the claimed `(b, 0)` is missing, for the reason recorded at
C1. -/
theorem scenarioA_output_and_liveness :
    Circuit.simulate_raw andGate1B 1 andInputs andReadOutputs = Except.ok [cwQ]
  ∧ cwQ.bv.value = 0
  ∧ cwQ.srcs.map wireKey = [("b", 0)]
  ∧ (Circuit.dump andGate1B 1 andInputs andReadOutputs).map (fun l => l.map wireKey)
      = Except.ok [("q", 0)] :=
  ⟨rfl, rfl, rfl, rfl⟩

/-- A 1-bit select wire with value 0. -/
def muxSel0 : ConcreteWire := ConcreteWire.mk "sel" (BV1 0) 0 []

/-- A 1-bit data wire with value 0, used as the `on_zero` port. -/
def muxX : ConcreteWire := ConcreteWire.mk "x" (BV1 0) 0 []

/-- A 1-bit data wire with value 1, used as the sole extra candidate. -/
def muxY : ConcreteWire := ConcreteWire.mk "y" (BV1 1) 0 []

/-- A 1-bit select wire with value 2 (addressing a candidate beyond the
provided data list, according to the documented select convention). -/
def muxSel2 : ConcreteWire := ConcreteWire.mk "sel" (BV1 2) 0 []

/-- C3 (code bug): `mux(select = 0, on_zero = X, args = [Y])` with
`X.value = 0` and `Y.value = 1` returns the value of `Y` (namely 1) with
sources `[select, Y]`, not the value of `on_zero` with sources
`{select, on_zero}` as the claim (and the mux docstring) state: the test on
the select value is inverted, so the zero select indexes `args[-1]`. -/
theorem mux_select_zero_returns_last_arg :
    ConcreteWire.mux muxSel0 muxX [muxY] = Except.ok (BV1 1, [muxSel0, muxY])
  ∧ muxX.bv.value = 0 :=
  ⟨rfl, rfl⟩

/-- C4 counterexample: constructing `BitVector(2, 1)` stores the value 2,
not `2 mod 2 = 0`, and the resulting vectors differ, refuting the masking
claim at this input. -/
theorem bitVector_mask_counterexample :
    ¬ ((BitVector.mk 2 1).value = (2 : Int) % 2 ^ 1
       ∧ BitVector.mk 2 1 = BitVector.mk ((2 : Int) % 2 ^ 1) 1) := by
  decide

/-- C4 as amended: `BitVector` construction performs no masking — the
stored value is exactly the argument, and `BitVector(v, w)` equals
`BitVector(v mod 2^w, w)` precisely when `v` already equals its residue. -/
theorem bitVector_construction_is_unmasked (v : Int) (w : Nat) :
    (BitVector.mk v w).value = v
  ∧ (BitVector.mk v w = BitVector.mk (v % 2 ^ w) w ↔ v = v % 2 ^ w) := by
  refine ⟨rfl, ?_, ?_⟩
  · intro h
    exact congrArg BitVector.value h
  · intro h
    exact congrArg (fun t => BitVector.mk t w) h

/-- A frozen bundle holding a single wire named `a`, as `freeze` leaves
it. -/
def frozenBundleA : WireBundle :=
  WireBundle.mk 0 [("a", ConcreteWire.mk "a" (BV1 1) 0 [])] true

/-- C5 (code bug): writes to a frozen bundle do fail, but deletion does
not — `__delitem__` has no frozen check, so `del` on a frozen bundle
succeeds and removes the wire, changing the contents that `freeze` is
documented to protect. -/
theorem frozen_bundle_delitem_succeeds :
    frozenBundleA.delitem "a" = Except.ok (WireBundle.mk 0 [] true)
  ∧ frozenBundleA.setitem "b" (SetItemArg.node (BV1 0, []))
      = Except.error PyError.keyError :=
  ⟨rfl, rfl⟩

/-- A 1-bit wire with value 1, left operand of the overflowing addition. -/
def addW1 : ConcreteWire := ConcreteWire.mk "a" (BV1 1) 0 []

/-- A 1-bit wire with value 1, right operand of the overflowing addition. -/
def addW2 : ConcreteWire := ConcreteWire.mk "b" (BV1 1) 0 []

/-- C6 counterexample: adding two 1-bit wires of value 1 yields a
`BitVector` with value 2 at width 1 — the stored value is not the sum
truncated modulo `2 ^ max(w1, w2)` (which would be 0). -/
theorem add_truncation_counterexample :
    ¬ ((ConcreteWire.add addW1 addW2).1.value
        = (addW1.bv.value + addW2.bv.value) % 2 ^ max addW1.bv.width addW2.bv.width) := by
  decide

/-- C6 as amended: the ADD operator returns width `max(w1, w2)` and both
operands as sources as claimed, but the value is the raw untruncated sum,
because the `BitVector` constructor performs no masking. -/
theorem add_width_value_sources (w1 w2 : ConcreteWire) :
    (ConcreteWire.add w1 w2).1.width = max w1.bv.width w2.bv.width
  ∧ (ConcreteWire.add w1 w2).1.value = w1.bv.value + w2.bv.value
  ∧ (ConcreteWire.add w1 w2).2 = [w1, w2] :=
  ⟨rfl, rfl, rfl⟩

/-- C7: the AND and OR sensitivity tables for 1-bit operand values.  AND
keeps both operands at `(0,0)` and `(1,1)`, and keeps only the 0-valued
operand in the mixed cases; OR is the exact complement mapping, keeping
only the 1-valued operand in the mixed cases. -/
theorem and_or_sensitivity (a b : ConcreteWire) :
    ((a.bv.value = 0 ∧ b.bv.value = 0) →
      (ConcreteWire.and a b).2 = [a, b] ∧ (ConcreteWire.or a b).2 = [a, b])
  ∧ ((a.bv.value = 0 ∧ b.bv.value = 1) →
      (ConcreteWire.and a b).2 = [a] ∧ (ConcreteWire.or a b).2 = [b])
  ∧ ((a.bv.value = 1 ∧ b.bv.value = 0) →
      (ConcreteWire.and a b).2 = [b] ∧ (ConcreteWire.or a b).2 = [a])
  ∧ ((a.bv.value = 1 ∧ b.bv.value = 1) →
      (ConcreteWire.and a b).2 = [a, b] ∧ (ConcreteWire.or a b).2 = [a, b]) := by
  refine ⟨?_, ?_, ?_, ?_⟩ <;> rintro ⟨h1, h2⟩ <;>
    exact ⟨by simp [ConcreteWire.and, h1, h2], by simp [ConcreteWire.or, h1, h2]⟩

/-- Witness for C7 at the concrete input `(0, 1)`: AND keeps only the left
(0-valued) operand and OR keeps only the right (1-valued) operand. -/
theorem and_or_sensitivity_witness :
    (ConcreteWire.and (ConcreteWire.mk "a" (BV1 0) 0 []) (ConcreteWire.mk "b" (BV1 1) 0 [])).2
      = [ConcreteWire.mk "a" (BV1 0) 0 []]
  ∧ (ConcreteWire.or (ConcreteWire.mk "a" (BV1 0) 0 []) (ConcreteWire.mk "b" (BV1 1) 0 [])).2
      = [ConcreteWire.mk "b" (BV1 1) 0 []] :=
  (and_or_sensitivity (ConcreteWire.mk "a" (BV1 0) 0 [])
    (ConcreteWire.mk "b" (BV1 1) 0 [])).2.1 ⟨rfl, rfl⟩

/-- C8 (code bug): the failure condition of `mux` is not the claimed one.
A select value of 2 with a single extra candidate — which the claim says
must raise an index-range error — succeeds and returns the `on_zero` port;
while a select value of 0 with an empty candidate list — which the claim
says cannot fail — raises `IndexError` (from `args[-1]` on an empty
tuple; the `assert idx < len(args)` guard compares `-1 < len(args)` and can
never fire). -/
theorem mux_index_error_mismatch :
    ConcreteWire.mux muxSel2 muxX [muxY] = Except.ok (muxX.bv, [muxSel2, muxX])
  ∧ ConcreteWire.mux muxSel0 muxX [] = Except.error PyError.indexError :=
  ⟨rfl, rfl⟩

/-- C9 counterexample: passing a bare `BitVector` to `set` on a non-frozen
bundle does not succeed — the non-`ConcreteWire` branch subscripts the
argument, and a `BitVector` is not subscriptable, so the call raises
`TypeError` instead of storing a zero-provenance wire. -/
theorem setitem_raw_bitvector_counterexample :
    WireBundle.setitem (WireBundle.mk 0 [] false) "a" (SetItemArg.rawBV (BV1 1))
      = Except.error PyError.typeError :=
  rfl

/-- C9 as amended: on a non-frozen bundle, a zero-provenance wire carrying
the bundle's own cycle is stored by passing the pair `(value, [])`; passing
a bare `BitVector` fails with `TypeError`. -/
theorem setitem_zero_provenance_pair (b : WireBundle) (k : String) (bv : BitVector)
    (h : b.frozen = false) :
    (∃ b2, b.setitem k (SetItemArg.node (bv, [])) = Except.ok b2
      ∧ b2.getitem k = Except.ok (ConcreteWire.mk k bv b.cycle [])
      ∧ b2.cycle = b.cycle)
  ∧ b.setitem k (SetItemArg.rawBV bv) = Except.error PyError.typeError := by
  refine ⟨⟨WireBundle.mk b.cycle (assocSet b.wires k (ConcreteWire.mk k bv b.cycle []))
      b.frozen, ?_, ?_, rfl⟩, ?_⟩
  · simp [WireBundle.setitem, h]
  · simp [WireBundle.getitem, find?_assocSet]
  · simp [WireBundle.setitem, h]

/-- Witness for the amended C9 at a concrete non-frozen bundle of cycle
3. -/
theorem setitem_zero_provenance_pair_witness :
    (∃ b2, (WireBundle.mk 3 [] false).setitem "n" (SetItemArg.node (BV1 1, []))
        = Except.ok b2
      ∧ b2.getitem "n" = Except.ok (ConcreteWire.mk "n" (BV1 1) 3 [])
      ∧ b2.cycle = 3)
  ∧ (WireBundle.mk 3 [] false).setitem "n" (SetItemArg.rawBV (BV1 1))
      = Except.error PyError.typeError :=
  setitem_zero_provenance_pair (WireBundle.mk 3 [] false) "n" (BV1 1) rfl

/-- C10: assigning an existing `ConcreteWire` to a non-frozen bundle
stores a new wire under the given name whose value equals the assigned
wire's value, whose cycle is the bundle's own cycle, and whose source list
is exactly the one-element list holding the assigned wire (pass-through
provenance). -/
theorem setitem_wire_passthrough (b : WireBundle) (k : String) (w : ConcreteWire)
    (h : b.frozen = false) :
    ∃ b2, b.setitem k (SetItemArg.wire w) = Except.ok b2
      ∧ b2.getitem k = Except.ok (ConcreteWire.mk k w.bv b.cycle [w])
      ∧ b2.cycle = b.cycle := by
  refine ⟨WireBundle.mk b.cycle (assocSet b.wires k (ConcreteWire.mk k w.bv b.cycle [w]))
      b.frozen, ?_, ?_, rfl⟩
  · simp [WireBundle.setitem, h]
  · simp [WireBundle.getitem, find?_assocSet]

/-- Witness for C10: assigning a concrete state wire to a cycle-2 bundle
stores a pass-through copy with the single source being that wire. -/
theorem setitem_wire_passthrough_witness :
    ∃ b2, (WireBundle.mk 2 [] false).setitem "q"
        (SetItemArg.wire (ConcreteWire.mk "m" (BV1 1) 1 [])) = Except.ok b2
      ∧ b2.getitem "q" = Except.ok (ConcreteWire.mk "q" (BV1 1) 2
          [ConcreteWire.mk "m" (BV1 1) 1 []])
      ∧ b2.cycle = 2 :=
  setitem_wire_passthrough (WireBundle.mk 2 [] false) "q"
    (ConcreteWire.mk "m" (BV1 1) 1 []) rfl

end GrayWires
